import Mathlib

/-!
Verification of the dual-mode web-automation engine (`ultimate_bot_tor.py`)
and its identity-rotating run supervisor (`run_bot_loop.py`).

The Python source is shallowly embedded below.  External collaborators
(the HTTP client, the real browser driver, and the markup parser) are kept
at their interface boundary: an HTTP response is a status/URL/parsed-body
record handed to the operation, the browser driver's answers are opaque
oracle parameters consumed only by the browser-mode branch, and a parsed
document is a forest of markup nodes.  Everything the transport-only
(requests) branches of the code do — selector matching, attribute reads,
URL reference resolution, form-field seeding, state updates — is modelled
directly from the source.
-/

/-! ## Character-list string utilities

All string processing is done structurally on `List Char` so that closed
terms reduce inside the kernel. -/

/-- Split a character list on a separator character, keeping empty pieces,
mirroring the behaviour of splitting a string on a one-character separator. -/
def splitOnChar (c : Char) : List Char → List (List Char)
  | [] => [[]]
  | x :: xs =>
    let r := splitOnChar c xs
    if x = c then [] :: r
    else
      match r with
      | [] => [[x]]
      | h :: t => (x :: h) :: t

/-- Join pieces with a separator, the inverse of `splitOnChar`. -/
def joinWith (sep : List Char) : List (List Char) → List Char
  | [] => []
  | [l] => l
  | l :: ls => l ++ sep ++ joinWith sep ls

/-- Whitespace test used by the strip operations. -/
def isWS (c : Char) : Bool :=
  c = ' ' || c = '\t' || c = '\n' || c = '\r'

/-- Strip leading and trailing whitespace from a character list. -/
def trimChars (cs : List Char) : List Char :=
  ((cs.dropWhile isWS).reverse.dropWhile isWS).reverse

/-- Strip leading and trailing whitespace from a string. -/
def strStrip (s : String) : String :=
  String.mk (trimChars s.data)

/-- Lower-case a string character by character. -/
def strLower (s : String) : String :=
  String.mk (s.data.map Char.toLower)

/-- Boolean test that one character list is an initial segment of another. -/
def listStartsWith : List Char → List Char → Bool
  | [], _ => true
  | _ :: _, [] => false
  | a :: as, b :: bs => a = b && listStartsWith as bs

/-! ## URL reference resolution

Model of the standard reference-resolution performed by the library call
the source uses to absolutise `href`/`src`/`action` values against the
current page URL (scheme, authority and path components; RFC 3986 §5). -/

/-- Split a leading URL scheme: `https://x/p` becomes `(https, //x/p)`.
The scheme must start with a letter and consist of letters, digits,
`+`, `-` and `.`, ended by a colon that appears before any slash. -/
def urlSplitScheme (cs : List Char) : Option (List Char × List Char) :=
  let pre := cs.takeWhile (fun c => !(c = ':' || c = '/' || c = '?' || c = '#'))
  match cs.drop pre.length with
  | ':' :: r =>
    match pre with
    | [] => none
    | c0 :: _ =>
      if c0.isAlpha && pre.all (fun c => c.isAlphanum || c = '+' || c = '-' || c = '.')
      then some (pre, r)
      else none
  | _ => none

/-- Split the part following `//` into authority and path. -/
def splitNetloc (cs : List Char) : List Char × List Char :=
  let net := cs.takeWhile (fun c => !(c = '/'))
  (net, cs.drop net.length)

/-- Parse an absolute URL into scheme, authority and path. -/
def urlParse3 (cs : List Char) : Option (List Char × List Char × List Char) :=
  match urlSplitScheme cs with
  | some (sc, rest) =>
    if listStartsWith ['/', '/'] rest then
      let (net, path) := splitNetloc (rest.drop 2)
      some (sc, net, path)
    else
      some (sc, [], rest)
  | none => none

/-- Remove `.` and `..` segments from an absolute path (RFC 3986 §5.2.4,
in the segment-list formulation). -/
def removeDotSegments (path : List Char) : List Char :=
  let segs := splitOnChar '/' (path.drop 1)
  let step := fun (acc : List (List Char)) (seg : List Char) =>
    if seg = ['.'] then acc
    else if seg = ['.', '.'] then acc.dropLast
    else acc ++ [seg]
  let core := segs.foldl step []
  let fin :=
    if segs.getLastD [] = ['.'] || segs.getLastD [] = ['.', '.']
    then core ++ [[]]
    else core
  '/' :: joinWith ['/'] fin

/-- Directory part of a path: everything up to and including the last `/`. -/
def dirOf (p : List Char) : List Char :=
  let parts := splitOnChar '/' p
  if parts.length ≤ 1 then []
  else joinWith ['/'] parts.dropLast ++ ['/']

/-- Merge a relative path into a base path (RFC 3986 §5.3). -/
def mergePath (bnet bpath rel : List Char) : List Char :=
  if bnet ≠ [] && bpath = [] then '/' :: rel
  else dirOf bpath ++ rel

/-- Resolve a scheme-less reference against parsed base components. -/
def resolveIn (bscheme bnet bpath rel : List Char) : List Char :=
  if rel = [] then bscheme ++ [':', '/', '/'] ++ bnet ++ bpath
  else if listStartsWith ['/', '/'] rel then
    let (rnet, rpath) := splitNetloc (rel.drop 2)
    bscheme ++ [':', '/', '/'] ++ rnet ++
      (if rpath = [] then [] else removeDotSegments rpath)
  else if listStartsWith ['/'] rel then
    bscheme ++ [':', '/', '/'] ++ bnet ++ removeDotSegments rel
  else
    bscheme ++ [':', '/', '/'] ++ bnet ++ removeDotSegments (mergePath bnet bpath rel)

/-- Reference resolution of `rel` against `base`, as the source's library
call performs it for http-style schemes: an absolute reference with a
different scheme is returned unchanged; a reference carrying the base's
own scheme is resolved as if the scheme were absent; otherwise the
reference is resolved against the base's authority and path. -/
def urljoin (base rel : String) : String :=
  match urlParse3 base.data with
  | none => if rel = "" then base else rel
  | some (bs, bnet, bpath) =>
    match urlSplitScheme rel.data with
    | some (rs, rrest) =>
      if rs = bs then
        if rrest = [] then base else String.mk (resolveIn bs bnet bpath rrest)
      else rel
    | none => String.mk (resolveIn bs bnet bpath rel.data)

example : urljoin "https://site/p" "/a" = "https://site/a" := by decide
example : urljoin "https://site/p" "http://ext/b" = "http://ext/b" := by decide
example : urljoin "https://site/p" "a" = "https://site/a" := by decide
example : urljoin "https://site/p/q" "a" = "https://site/p/a" := by decide
example : urljoin "https://site/p/q" "../a" = "https://site/a" := by decide
example : urljoin "https://site/p" "https://other/x" = "https://other/x" := by decide
example : urljoin "https://site/a/b" ".." = "https://site/" := by decide

/-! ## Parsed markup model

A Document produced by the markup parser is a forest of nodes; an element
node carries its tag, attribute mapping and children. -/

/-- Node of a parsed markup tree. -/
inductive HNode where
  | text (s : String)
  | elem (tag : String) (attrs : List (String × String)) (children : List HNode)
deriving Repr

/-- Parsed document: the forest of top-level nodes of a page. -/
abbrev Markup := List HNode

/-- First value bound to a key in an attribute list or field map, the way
the parser's attribute lookup and the field-map lookup behave. -/
def dlookup (k : String) : List (String × String) → Option String
  | [] => none
  | p :: t => if k = p.1 then some p.2 else dlookup k t

/-- Attribute lookup with a default, modelling `node.get(attr, default)`. -/
def attrD (attrs : List (String × String)) (k d : String) : String :=
  (dlookup k attrs).getD d

/-- Attribute lookup with a default on a node; text nodes have none. -/
def nodeAttrD : HNode → String → String → String
  | .text _, _, d => d
  | .elem _ attrs _, k, d => attrD attrs k d

/-- Tag of a node; text nodes have none. -/
def tagOf : HNode → String
  | .text _ => ""
  | .elem t _ _ => t

mutual

/-- All elements of a subtree satisfying a tag/attribute predicate,
including the root, in document order. -/
def collectNode (p : String → List (String × String) → Bool) : HNode → List HNode
  | .text _ => []
  | .elem t a cs => (if p t a then [HNode.elem t a cs] else []) ++ collectForest p cs

/-- All elements of a forest satisfying a predicate, in document order. -/
def collectForest (p : String → List (String × String) → Bool) : List HNode → List HNode
  | [] => []
  | n :: ns => collectNode p n ++ collectForest p ns

end

/-- CSS selectors actually used by the source: a bare tag (`img`, `form`,
`title`), a tag with a required attribute (`a[href]`), and a tag with an
exact attribute value (`meta` with a given `name`, `form[action=...]`). -/
inductive Selector where
  | tag (t : String)
  | tagAttr (t a : String)
  | tagAttrEq (t a v : String)
deriving Repr

/-- Whether an element with the given tag and attributes matches a selector. -/
def selMatches : Selector → String → List (String × String) → Bool
  | .tag t, tg, _ => tg = t
  | .tagAttr t a, tg, attrs => (tg = t) && (dlookup a attrs).isSome
  | .tagAttrEq t a v, tg, attrs =>
    (tg = t) && (match dlookup a attrs with
                 | some w => w = v
                 | none => false)

/-- The parser's `select`: all matching elements of a document in document
order. -/
def selectF (sel : Selector) (soup : Markup) : List HNode :=
  collectForest (selMatches sel) soup

/-- The parser's `select_one`: the first matching element, if any. -/
def select_oneF (sel : Selector) (soup : Markup) : Option HNode :=
  (selectF sel soup).head?

mutual

/-- Text fragments of a subtree in document order. -/
def nodeTexts : HNode → List String
  | .text s => [s]
  | .elem _ _ cs => forestTexts cs

/-- Text fragments of a forest in document order. -/
def forestTexts : List HNode → List String
  | [] => []
  | n :: ns => nodeTexts n ++ forestTexts ns

end

/-- Whole text of a node with each fragment stripped, modelling
`get_text(strip=True)`. -/
def get_text_strip (n : HNode) : String :=
  String.join ((nodeTexts n).map strStrip)

/-- Whole text of a node unstripped, modelling a bare `get_text()`. -/
def get_text_raw (n : HNode) : String :=
  String.join (nodeTexts n)

/-- Whole text of a document, modelling `soup.get_text()`. -/
def forest_text_raw (soup : Markup) : String :=
  String.join (forestTexts soup)

example :
    selectF (Selector.tagAttr "a" "href")
      [HNode.elem "div" [] [HNode.elem "a" [("href", "/a")] [HNode.text "X"]],
       HNode.elem "a" [] [HNode.text "Y"]] =
      [HNode.elem "a" [("href", "/a")] [HNode.text "X"]] := rfl

example : get_text_strip (HNode.elem "a" [] [HNode.text " X ", HNode.text "Y"]) = "XY" := rfl

/-! ## Session state and transport

The session (`UltimateBot`) holds the configured flags, the optional live
driver handle, the current URL and the current parsed Document. -/

/-- Mutable session context of one engine instance. -/
structure BotState where
  use_browser : Bool
  headless : Bool
  stealth : Bool
  use_tor : Bool
  driver : Option Unit
  current_url : String
  current_soup : Option Markup

/-- Branch condition `self.use_browser and self.driver` used by every
mode-dispatching operation of the source. -/
def browserMode (st : BotState) : Bool :=
  st.use_browser && st.driver.isSome

/-- Answer of the HTTP client to one request: final URL after redirects,
status code, and the parsed response body. -/
structure HttpResponse where
  status_code : Nat
  url : String
  body : Markup

/-- Answer of the live browser to one navigation: current URL and the
parsed page source. -/
structure BrowserNav where
  current_url : String
  page_source : Markup

/-- Record returned by `extract_links`. -/
structure LinkRecord where
  url : String
  text : String
  title : String
deriving Repr, DecidableEq

/-- Record returned by `extract_images`. -/
structure ImageRecord where
  url : String
  alt : String
  title : String
deriving Repr, DecidableEq

/-- Aggregate snapshot returned by `get_page_info`. -/
structure PageInfo where
  url : String
  title : String
  description : String
  keywords : String
  links_count : Nat
  images_count : Nat
  forms_count : Nat
  text_length : Nat
  mode : String
deriving Repr, DecidableEq

/-! ## Engine operations

Each mode-dispatching operation takes the browser-mode branch's outcome as
an opaque oracle argument (the driver is an external collaborator); the
transport-only branch is modelled from the source. -/

/-- Navigation (`UltimateBot.goto`).  In browser mode the driver's answer
is consumed; `none` models a raised load exception.  In requests mode a
non-200 status or a raised request exception returns failure and leaves
the session untouched; a 200 response replaces the current URL and
Document. -/
def goto (st : BotState) (bnav : Option BrowserNav) (resp : Option HttpResponse) :
    Bool × BotState :=
  if browserMode st then
    match bnav with
    | none => (false, st)
    | some b => (true, { st with current_url := b.current_url,
                                 current_soup := some b.page_source })
  else
    match resp with
    | none => (false, st)
    | some r =>
      if r.status_code ≠ 200 then (false, st)
      else (true, { st with current_url := r.url, current_soup := some r.body })

/-- Transport-only branch of `find`: `select_one` on the current Document,
`none` when no Document is loaded. -/
def findT (st : BotState) (sel : Selector) : Option HNode :=
  match st.current_soup with
  | some soup => select_oneF sel soup
  | none => none

/-- Element lookup (`UltimateBot.find`). -/
def find (st : BotState) (bres : Option HNode) (sel : Selector) : Option HNode :=
  if browserMode st then bres else findT st sel

/-- Transport-only branch of `find_all`: `select` on the current Document,
empty when no Document is loaded. -/
def find_allT (st : BotState) (sel : Selector) : List HNode :=
  match st.current_soup with
  | some soup => selectF sel soup
  | none => []

/-- Element enumeration (`UltimateBot.find_all`). -/
def find_all (st : BotState) (bres : List HNode) (sel : Selector) : List HNode :=
  if browserMode st then bres else find_allT st sel

/-- Transport-only branch of `extract_links`: enumerate `a[href]` elements,
skip empty `href` values, absolutise each `href` against the current URL,
and record the stripped text and the `title` attribute. -/
def extract_linksT (st : BotState) : List LinkRecord :=
  (find_allT st (Selector.tagAttr "a" "href")).filterMap (fun e =>
    let href := nodeAttrD e "href" ""
    if href = "" then none
    else some { url := urljoin st.current_url href,
                text := get_text_strip e,
                title := nodeAttrD e "title" "" })

/-- Link extraction (`UltimateBot.extract_links`). -/
def extract_links (st : BotState) (bres : List LinkRecord) : List LinkRecord :=
  if browserMode st then bres else extract_linksT st

/-- Transport-only branch of `extract_images`: enumerate `img` elements,
skip empty `src` values, absolutise each `src` against the current URL. -/
def extract_imagesT (st : BotState) : List ImageRecord :=
  (find_allT st (Selector.tag "img")).filterMap (fun e =>
    let src := nodeAttrD e "src" ""
    if src = "" then none
    else some { url := urljoin st.current_url src,
                alt := nodeAttrD e "alt" "",
                title := nodeAttrD e "title" "" })

/-- Image extraction (`UltimateBot.extract_images`). -/
def extract_images (st : BotState) (bres : List ImageRecord) : List ImageRecord :=
  if browserMode st then bres else extract_imagesT st

/-- Transport-only branch of `get_title`: stripped text of the first
`title` element, empty without a Document or `title` element. -/
def get_titleT (st : BotState) : String :=
  match st.current_soup with
  | none => ""
  | some soup =>
    match select_oneF (Selector.tag "title") soup with
    | some t => get_text_strip t
    | none => ""

/-- Title accessor (`UltimateBot.get_title`). -/
def get_title (st : BotState) (bres : String) : String :=
  if browserMode st then bres else get_titleT st

/-- Transport-only branch of `get_page_info`: the aggregate snapshot
recomputed from the current Document, with empty-string defaults for a
missing title and missing description/keywords meta tags. -/
def get_page_infoT (st : BotState) : PageInfo :=
  let base : PageInfo :=
    { url := st.current_url, title := "", description := "", keywords := "",
      links_count := 0, images_count := 0, forms_count := 0, text_length := 0,
      mode := "requests" }
  match st.current_soup with
  | none => base
  | some soup =>
    { base with
      title :=
        (match select_oneF (Selector.tag "title") soup with
         | some t => get_text_strip t
         | none => "")
      description :=
        (match select_oneF (Selector.tagAttrEq "meta" "name" "description") soup with
         | some m => nodeAttrD m "content" ""
         | none => "")
      keywords :=
        (match select_oneF (Selector.tagAttrEq "meta" "name" "keywords") soup with
         | some m => nodeAttrD m "content" ""
         | none => "")
      links_count := (selectF (Selector.tagAttr "a" "href") soup).length
      images_count := (selectF (Selector.tag "img") soup).length
      forms_count := (selectF (Selector.tag "form") soup).length
      text_length := (strStrip (forest_text_raw soup)).length }

/-- Page-information snapshot (`UltimateBot.get_page_info`). -/
def get_page_info (st : BotState) (bres : PageInfo) : PageInfo :=
  if browserMode st then bres else get_page_infoT st

/-! ## Browser-only actions -/

/-- Warning messages the engine logs on the failure paths of `click` and
`type_text`; the mode warnings are what the source emits when an action
requiring a live browser is requested in transport-only mode. -/
inductive BotWarning where
  | clickRequiresBrowser
  | typeRequiresBrowser
  | clickFailed
  | typeFailed
deriving Repr, DecidableEq

/-- Outcome of the browser-mode branch of `click`/`type_text`, abstracted
over the external driver: the action succeeded, the target element was not
found, or the driver raised. -/
inductive BrowserActionOutcome where
  | success
  | elementMissing
  | actionError
deriving Repr, DecidableEq

/-- Click action (`UltimateBot.click`): in transport-only mode it returns
failure after logging the requires-browser warning, without touching the
session; in browser mode the driver decides the outcome. -/
def click (st : BotState) (bout : BrowserActionOutcome) : Bool × Option BotWarning :=
  if browserMode st then
    match bout with
    | .success => (true, none)
    | .elementMissing => (false, none)
    | .actionError => (false, some .clickFailed)
  else (false, some .clickRequiresBrowser)

/-- Typing action (`UltimateBot.type_text`), analogous to `click`. -/
def type_text (st : BotState) (bout : BrowserActionOutcome) : Bool × Option BotWarning :=
  if browserMode st then
    match bout with
    | .success => (true, none)
    | .elementMissing => (false, none)
    | .actionError => (false, some .typeFailed)
  else (false, some .typeRequiresBrowser)

/-! ## Form submission (transport-only algorithm) -/

/-- Overwrite-or-append insertion preserving insertion order, the update
behaviour of the field-map dictionary. -/
def dinsert (d : List (String × String)) (k v : String) : List (String × String) :=
  if (dlookup k d).isSome then
    d.map (fun p => if p.1 = k then (k, v) else p)
  else d ++ [(k, v)]

/-- Overlay of one field map onto another (`form_fields.update(form_data)`). -/
def dupdate (d upd : List (String × String)) : List (String × String) :=
  upd.foldl (fun acc p => dinsert acc p.1 p.2) d

/-- Seeding contribution of one form descendant, from the source's loop:
a named `input` contributes its `value` (default empty) only when its
`type` (default `text`) is one of text, email, password, hidden; a named
`textarea` contributes its raw text; every other collected element —
including every `select` — contributes nothing. -/
def form_field_entry (e : HNode) : Option (String × String) :=
  match dlookup "name" (match e with | .text _ => [] | .elem _ attrs _ => attrs) with
  | none => none
  | some name =>
    if name = "" then none
    else if tagOf e = "input" then
      let t := nodeAttrD e "type" "text"
      if t = "text" || t = "email" || t = "password" || t = "hidden"
      then some (name, nodeAttrD e "value" "")
      else none
    else if tagOf e = "textarea" then some (name, get_text_raw e)
    else none

/-- Field map seeded from a form's `input`/`select`/`textarea` descendants
in document order. -/
def seed_fields (form : HNode) : List (String × String) :=
  (collectNode (fun t _ => t = "input" || t = "select" || t = "textarea") form).foldl
    (fun acc e =>
      match form_field_entry e with
      | some p => dinsert acc p.1 p.2
      | none => acc) []

/-- Final field map of a submission: seeded defaults overlaid with the
caller-supplied data. -/
def build_form_fields (form : HNode) (form_data : List (String × String)) :
    List (String × String) :=
  dupdate (seed_fields form) form_data

/-- Request issued by the transport-only branch of `submit_form`: the
lower-cased `method` (GET is used for anything other than `post`), the
submission URL, and the field map. -/
structure FormRequest where
  method : String
  url : String
  fields : List (String × String)
deriving Repr

/-- Request construction of the transport-only branch of `submit_form`
(`UltimateBot.submit_form`, requests-mode half): fail without a Document
or when the form selector matches nothing; otherwise resolve the form's
`action` against the current URL (keeping the current URL for an empty
action), read the lower-cased `method` defaulting to get, and build the
field map. -/
def submit_form_request (st : BotState) (form_data : List (String × String))
    (form_selector : Selector) : Option FormRequest :=
  match st.current_soup with
  | none => none
  | some soup =>
    match select_oneF form_selector soup with
    | none => none
    | some form =>
      let action := nodeAttrD form "action" ""
      let method := strLower (nodeAttrD form "method" "get")
      let submit_url := if action ≠ "" then urljoin st.current_url action
                        else st.current_url
      some { method := method, url := submit_url,
             fields := build_form_fields form form_data }

/-- Form submission (`UltimateBot.submit_form`).  In browser mode the
driver decides the outcome and the parsed session state is untouched.  In
transport-only mode the request is built as above and the session's
response (`none` models a raised request exception) decides the result: a
200 status replaces the current URL and Document, anything else returns
failure with the session untouched. -/
def submit_form (st : BotState) (bout : Bool) (form_data : List (String × String))
    (form_selector : Selector) (resp : Option HttpResponse) : Bool × BotState :=
  if browserMode st then (bout, st)
  else
    match submit_form_request st form_data form_selector with
    | none => (false, st)
    | some _ =>
      match resp with
      | none => (false, st)
      | some r =>
        if r.status_code = 200 then
          (true, { st with current_url := r.url, current_soup := some r.body })
        else (false, st)

/-! ## Browser startup and the session step relation -/

/-- Browser startup (`UltimateBot.start_browser`): a no-op when browsing
is off or a driver already runs; otherwise the two driver strategies are
tried in order (their success is the pair of oracle flags) and on failure
of both the session permanently switches `use_browser` off.  The source
returns True in every case. -/
def start_browser (st : BotState) (m1 m2 : Bool) : Bool × BotState :=
  if !st.use_browser || st.driver.isSome then (true, st)
  else if m1 then (true, { st with driver := some () })
  else if m2 then (true, { st with driver := some () })
  else (true, { st with use_browser := false })

/-- One public operation of the session together with its oracles; the
read-only operations never change the session. -/
inductive BotOp where
  | op_goto (bnav : Option BrowserNav) (resp : Option HttpResponse)
  | op_submit_form (bout : Bool) (form_data : List (String × String))
      (form_selector : Selector) (resp : Option HttpResponse)
  | op_start_browser (m1 m2 : Bool)
  | op_read

/-- State transition of one operation. -/
def applyOp (st : BotState) : BotOp → BotState
  | .op_goto bnav resp => (goto st bnav resp).2
  | .op_submit_form bout fd sel resp => (submit_form st bout fd sel resp).2
  | .op_start_browser m1 m2 => (start_browser st m1 m2).2
  | .op_read => st

/-- State after a sequence of operations. -/
def runOps (st : BotState) (ops : List BotOp) : BotState :=
  ops.foldl applyOp st

/-! ## Run supervisor (`run_bot_loop.py`)

The supervisor is a straight-line loop of 200 iterations; its body
unconditionally restarts the anonymizing proxy, probes the new identity,
launches one worker, blocks until the worker exits (the exit code is not
inspected), and sleeps.  The loop body contains no branch and no early
exit, so it is embedded as the trace of external events it performs, with
the workers' exit codes supplied as an oracle. -/

/-- External events one supervisor iteration performs, in order. -/
inductive SupEvent where
  | rotate (i : Nat)
  | probe (i : Nat)
  | launch (i : Nat)
  | waitExit (i : Nat) (code : Int)
  | cooldown (i : Nat)
deriving Repr, DecidableEq

/-- Event trace of iteration `i` whose worker exits with `code`. -/
def iterationTrace (i : Nat) (code : Int) : List SupEvent :=
  [.rotate i, .probe i, .launch i, .waitExit i code, .cooldown i]

/-- Trace of `remaining` iterations starting at index `i`. -/
def traceFrom (exits : Nat → Int) (i : Nat) : Nat → List SupEvent
  | 0 => []
  | r + 1 => iterationTrace i (exits i) ++ traceFrom exits (i + 1) r

/-- Full trace of the supervisor's `for i in range(200)` loop. -/
def supervisorTrace (exits : Nat → Int) : List SupEvent :=
  traceFrom exits 0 200

/-! ## Worker argument handling (`main`) -/

/-- Parsed command-line arguments of the worker. -/
structure Args where
  url : Option String
  urls : Option (List String)
  search : Option String
  bing : Option String
  browser : Bool
  headless : Bool
  screenshot : Bool
  info : Bool
  save : Bool
  links : Bool
  images : Bool
  interactive : Bool
  batch : Bool
  tor : Bool
deriving Repr

/-- Fixed internal URL list `urls_to_process` of `main`. -/
def urls_to_process : List String :=
  ["https://x.com/Hitansh54/status/1931754193489957133",
   "https://x.com/Hitansh54/status/1931410374139777334",
   "https://x.com/Hitansh54/status/1931399970139296013",
   "https://x.com/Hitansh54/status/1930697596261060654"]

/-- Single-URL action selected by the trailing branch of `main`. -/
inductive SingleTarget where
  | searchGoogle (q : String)
  | searchBing (q : String)
  | gotoUrl (u : String)
deriving Repr, DecidableEq

/-- Action `main` dispatches to. -/
inductive MainAction where
  | interactive
  | multi (urls : List String) (tor : Bool)
  | single (t : SingleTarget)
deriving Repr, DecidableEq

/-- Truthiness of an optional string flag: present and non-empty. -/
def truthyStr : Option String → Option String
  | some s => if s = "" then none else some s
  | none => none

/-- Truthiness of the optional URL-list flag: present and non-empty. -/
def truthyList : Option (List String) → Option (List String)
  | some [] => none
  | some (u :: us) => some (u :: us)
  | none => none

/-- Trailing single-URL branch of `main`: the first applicable of
`--search`, `--bing`, `--url`, else the first internal URL (or the Google
front page if the internal list were empty). -/
def singleFlow (a : Args) : SingleTarget :=
  match truthyStr a.search with
  | some q => .searchGoogle q
  | none =>
    match truthyStr a.bing with
    | some q => .searchBing q
    | none =>
      match truthyStr a.url with
      | some u => .gotoUrl u
      | none => .gotoUrl (urls_to_process.headD "https://www.google.com")

/-- Dispatch order of `main`: `--interactive` first, then `--batch` (the
internal list, with the anonymizing-route flag), then `--urls` (without
that flag), then the single-URL branch. -/
def mainDispatch (a : Args) : MainAction :=
  if a.interactive then .interactive
  else if a.batch then .multi urls_to_process a.tor
  else
    match truthyList a.urls with
    | some us => .multi us false
    | none => .single (singleFlow a)

/-! ## Helper lemmas -/

theorem dlookup_append (d1 d2 : List (String × String)) (k : String) :
    dlookup k (d1 ++ d2) =
      match dlookup k d1 with
      | some v => some v
      | none => dlookup k d2 := by
  induction d1 with
  | nil => simp [dlookup]
  | cons p t ih =>
    by_cases h : k = p.1 <;> simp [dlookup, h, ih]

theorem dlookup_map_overwrite_self (d : List (String × String)) (k v : String) :
    dlookup k (d.map (fun p => if p.1 = k then (k, v) else p)) =
      (dlookup k d).map (fun _ => v) := by
  induction d with
  | nil => simp [dlookup]
  | cons p t ih =>
    by_cases h : p.1 = k
    · simp [dlookup, h, ih]
    · have h' : ¬ k = p.1 := fun hk => h hk.symm
      simp [dlookup, h, h', ih]

theorem dlookup_map_overwrite_other (d : List (String × String)) (k v k' : String)
    (hne : k' ≠ k) :
    dlookup k' (d.map (fun p => if p.1 = k then (k, v) else p)) = dlookup k' d := by
  induction d with
  | nil => simp [dlookup]
  | cons p t ih =>
    by_cases h : p.1 = k
    · have h1 : ¬ k' = p.1 := fun hk => hne (hk.trans h)
      simp [dlookup, h, h1, hne, ih]
    · by_cases h2 : k' = p.1 <;> simp [dlookup, h, h2, ih]

theorem dlookup_dinsert (d : List (String × String)) (k v k' : String) :
    dlookup k' (dinsert d k v) = if k' = k then some v else dlookup k' d := by
  unfold dinsert
  by_cases hs : (dlookup k d).isSome
  · rw [if_pos hs]
    by_cases hk : k' = k
    · subst hk
      rw [if_pos rfl, dlookup_map_overwrite_self]
      obtain ⟨w, hw⟩ := Option.isSome_iff_exists.mp hs
      simp [hw]
    · rw [if_neg hk, dlookup_map_overwrite_other d k v k' hk]
  · rw [if_neg hs, dlookup_append]
    have hnone : dlookup k d = none := Option.not_isSome_iff_eq_none.mp hs
    by_cases hk : k' = k
    · subst hk
      simp [hnone, dlookup]
    · cases hcase : dlookup k' d <;> simp [dlookup, hk]

theorem dlookup_none_of_not_mem (l : List (String × String)) (k : String)
    (h : k ∉ l.map Prod.fst) : dlookup k l = none := by
  induction l with
  | nil => rfl
  | cons p t ih =>
    simp only [List.map_cons, List.mem_cons] at h
    push_neg at h
    simp [dlookup, h.1, ih h.2]

theorem dlookup_dupdate (upd : List (String × String))
    (hnd : (upd.map Prod.fst).Nodup) (d : List (String × String)) (k : String) :
    dlookup k (dupdate d upd) =
      match dlookup k upd with
      | some v => some v
      | none => dlookup k d := by
  induction upd generalizing d with
  | nil => simp [dupdate, dlookup]
  | cons p t ih =>
    simp only [List.map_cons, List.nodup_cons] at hnd
    have step : dupdate d (p :: t) = dupdate (dinsert d p.1 p.2) t := rfl
    rw [step, ih hnd.2]
    by_cases hk : k = p.1
    · have ht : dlookup k t = none :=
        dlookup_none_of_not_mem t k (by rw [hk]; exact hnd.1)
      rw [hk] at ht
      simp [ht, dlookup, hk, dlookup_dinsert]
    · cases hcase : dlookup k t <;>
        simp [dlookup, hk, hcase, dlookup_dinsert]

theorem goto_preserves_flags (st : BotState) (bnav : Option BrowserNav)
    (resp : Option HttpResponse) :
    (goto st bnav resp).2.use_browser = st.use_browser ∧
    (goto st bnav resp).2.driver = st.driver := by
  unfold goto
  split
  · cases bnav <;> simp
  · cases resp with
    | none => simp
    | some r => by_cases h : r.status_code ≠ 200 <;> simp [h]

theorem submit_form_preserves_flags (st : BotState) (bout : Bool)
    (fd : List (String × String)) (sel : Selector) (resp : Option HttpResponse) :
    (submit_form st bout fd sel resp).2.use_browser = st.use_browser ∧
    (submit_form st bout fd sel resp).2.driver = st.driver := by
  unfold submit_form
  split
  · simp
  · cases submit_form_request st fd sel with
    | none => simp
    | some req =>
      cases resp with
      | none => simp
      | some r => by_cases h : r.status_code = 200 <;> simp [h]

theorem start_browser_degraded (st : BotState) (m1 m2 : Bool)
    (h : st.use_browser = false) : start_browser st m1 m2 = (true, st) := by
  unfold start_browser
  simp [h]

theorem applyOp_degraded (st : BotState) (o : BotOp) (h : st.use_browser = false) :
    (applyOp st o).use_browser = false ∧ (applyOp st o).driver = st.driver := by
  cases o with
  | op_goto bnav resp =>
    have hp := goto_preserves_flags st bnav resp
    exact ⟨hp.1.trans h, hp.2⟩
  | op_submit_form bout fd sel resp =>
    have hp := submit_form_preserves_flags st bout fd sel resp
    exact ⟨hp.1.trans h, hp.2⟩
  | op_start_browser m1 m2 =>
    simp [applyOp, start_browser_degraded st m1 m2 h, h]
  | op_read => exact ⟨h, rfl⟩

theorem runOps_degraded (ops : List BotOp) (st : BotState)
    (h : st.use_browser = false) :
    (runOps st ops).use_browser = false ∧ (runOps st ops).driver = st.driver := by
  induction ops generalizing st with
  | nil => exact ⟨h, rfl⟩
  | cons o t ih =>
    have h1 := applyOp_degraded st o h
    have h2 := ih (applyOp st o) h1.1
    exact ⟨h2.1, h2.2.trans h1.2⟩

theorem browserMode_false_of_not_use_browser (st : BotState)
    (h : st.use_browser = false) : browserMode st = false := by
  simp [browserMode, h]

theorem traceFrom_length (exits : Nat → Int) (i r : Nat) :
    (traceFrom exits i r).length = 5 * r := by
  induction r generalizing i with
  | zero => rfl
  | succ r ih =>
    simp only [traceFrom, List.length_append, ih]
    simp [iterationTrace]
    ring

theorem traceFrom_getElem (exits : Nat → Int) (r : Nat) :
    ∀ (i k j : Nat), k < r → j < 5 →
      (traceFrom exits i r)[5 * k + j]? =
        (iterationTrace (i + k) (exits (i + k)))[j]? := by
  induction r with
  | zero => intro i k j hk; omega
  | succ r ih =>
    intro i k j hk hj
    cases k with
    | zero =>
      simp only [traceFrom]
      rw [List.getElem?_append]
      have hlen : (iterationTrace i (exits i)).length = 5 := rfl
      rw [hlen]
      split
      · simp
      · omega
    | succ k =>
      simp only [traceFrom]
      rw [List.getElem?_append]
      have hlen : (iterationTrace i (exits i)).length = 5 := rfl
      rw [hlen]
      rw [if_neg (by omega)]
      have harith : 5 * (k + 1) + j - 5 = 5 * k + j := by omega
      rw [harith, ih (i + 1) k j (by omega) hj]
      have hik : i + 1 + k = i + (k + 1) := by omega
      rw [hik]

theorem goto_transport (st : BotState) (bnav : Option BrowserNav)
    (resp : Option HttpResponse) (hm : browserMode st = false) :
    goto st bnav resp =
      match resp with
      | none => (false, st)
      | some r =>
        if r.status_code ≠ 200 then (false, st)
        else (true, { st with current_url := r.url, current_soup := some r.body }) := by
  unfold goto
  rw [hm]
  rfl

theorem find_transport (st : BotState) (bres : Option HNode) (sel : Selector)
    (hm : browserMode st = false) : find st bres sel = findT st sel := by
  unfold find
  rw [hm]
  rfl

theorem find_all_transport (st : BotState) (bres : List HNode) (sel : Selector)
    (hm : browserMode st = false) : find_all st bres sel = find_allT st sel := by
  unfold find_all
  rw [hm]
  rfl

theorem extract_links_transport (st : BotState) (bres : List LinkRecord)
    (hm : browserMode st = false) : extract_links st bres = extract_linksT st := by
  unfold extract_links
  rw [hm]
  rfl

theorem extract_images_transport (st : BotState) (bres : List ImageRecord)
    (hm : browserMode st = false) : extract_images st bres = extract_imagesT st := by
  unfold extract_images
  rw [hm]
  rfl

theorem get_title_transport (st : BotState) (bres : String)
    (hm : browserMode st = false) : get_title st bres = get_titleT st := by
  unfold get_title
  rw [hm]
  rfl

theorem get_page_info_transport (st : BotState) (bres : PageInfo)
    (hm : browserMode st = false) : get_page_info st bres = get_page_infoT st := by
  unfold get_page_info
  rw [hm]
  rfl

theorem submit_form_transport (st : BotState) (bout : Bool)
    (fd : List (String × String)) (sel : Selector) (resp : Option HttpResponse)
    (hm : browserMode st = false) :
    submit_form st bout fd sel resp =
      match submit_form_request st fd sel with
      | none => (false, st)
      | some _ =>
        match resp with
        | none => (false, st)
        | some r =>
          if r.status_code = 200 then
            (true, { st with current_url := r.url, current_soup := some r.body })
          else (false, st) := by
  unfold submit_form
  rw [hm]
  rfl

/-! ## Claim C1 — navigation failure behaviour in transport-only mode -/

/-- Transport-only session holding a previously loaded Document, used to
exercise `goto`. -/
def c1State : BotState :=
  { use_browser := false, headless := true, stealth := true, use_tor := true,
    driver := none, current_url := "https://old.example/page",
    current_soup := some [HNode.elem "p" [] [HNode.text "old"]] }

/-- Response with the 2xx status 204 for the C1 counterexample. -/
def c1Resp : HttpResponse :=
  { status_code := 204, url := "https://site/next", body := [] }

/-- Claim C1 counterexample: a 204 No Content response has a 2xx status,
yet `goto` in transport-only mode returns failure on it and leaves the
session unchanged — the code succeeds only on status exactly 200, so
"failure iff non-2xx" is false on the code. -/
theorem goto_non200_counterexample :
    (200 ≤ c1Resp.status_code ∧ c1Resp.status_code < 300) ∧
    goto c1State none (some c1Resp) = (false, c1State) := by
  constructor
  · decide
  · rfl

/-- Claim C1 (amended): in transport-only mode `goto` succeeds exactly
when the request completes and the status is exactly 200 (not: any 2xx);
on every failure — exception or status other than 200 — the previous
Document and current URL are left unchanged, and on success the Document
and URL are replaced from the response. -/
theorem goto_requests_success_iff_200 (st : BotState) (bnav : Option BrowserNav)
    (r : HttpResponse) (h : browserMode st = false) :
    ((goto st bnav (some r)).1 = true ↔ r.status_code = 200) ∧
    goto st bnav none = (false, st) ∧
    (r.status_code ≠ 200 → goto st bnav (some r) = (false, st)) ∧
    (r.status_code = 200 → goto st bnav (some r) =
      (true, { st with current_url := r.url, current_soup := some r.body })) := by
  rw [goto_transport st bnav (some r) h, goto_transport st bnav none h]
  by_cases hs : r.status_code = 200 <;> simp [hs]

/-- Response with status 200 for the C1 witness. -/
def c1RespOk : HttpResponse :=
  { status_code := 200, url := "https://site/ok", body := [HNode.text "ok"] }

/-- Witness for the amended C1 theorem at a concrete 200 response. -/
theorem goto_requests_success_iff_200_witness :
    (goto c1State none (some c1RespOk)).1 = true :=
  ((goto_requests_success_iff_200 c1State none c1RespOk rfl).1).mpr rfl

/-! ## Claim C2 — link extraction and URL resolution -/

/-- Transport-only session whose Document is the markup of the C2
scenario, loaded from `https://site/p`. -/
def c2State : BotState :=
  { use_browser := false, headless := false, stealth := true, use_tor := false,
    driver := none, current_url := "https://site/p",
    current_soup := some
      [HNode.elem "a" [("href", "/a")] [HNode.text "X"],
       HNode.elem "a" [("href", "http://ext/b")] [HNode.text "Y"]] }

/-- Claim C2 counterexample: the absolute-path reference `/a` resolves to
`https://site/a` (standard reference resolution replaces the whole path),
so no produced record carries the claimed URL `https://site/p/a`. -/
theorem extract_links_resolution_counterexample :
    (extract_links c2State []).map (fun r => (r.url, r.text)) =
      [("https://site/a", "X"), ("http://ext/b", "Y")] ∧
    "https://site/p/a" ∉ (extract_links c2State []).map LinkRecord.url := by
  constructor
  · rfl
  · decide

/-- Claim C2 (amended): loading that markup from `https://site/p` makes
`extract_links` return exactly the records `{https://site/a, X}` and
`{http://ext/b, Y}` — the relative reference resolved by standard
reference resolution, under which `/a` replaces the base path. -/
theorem extract_links_standard_resolution (bres : List LinkRecord) :
    extract_links c2State bres =
      [{ url := "https://site/a", text := "X", title := "" },
       { url := "http://ext/b", text := "Y", title := "" }] ∧
    urljoin "https://site/p" "/a" = "https://site/a" ∧
    urljoin "https://site/p" "http://ext/b" = "http://ext/b" :=
  ⟨rfl, rfl, rfl⟩

/-! ## Claim C3 — form-field seeding in transport-only submission -/

/-- Form holding a `number` input with a default value, a `select` with a
value, and a `hidden` input, for the C3 counterexample. -/
def c3Form : HNode :=
  HNode.elem "form" [("action", ""), ("method", "get")]
    [HNode.elem "input" [("type", "number"), ("name", "n"), ("value", "5")] [],
     HNode.elem "select" [("name", "s"), ("value", "x")] [],
     HNode.elem "input" [("type", "hidden"), ("name", "h"), ("value", "k")] []]

/-- Transport-only session whose Document holds `c3Form`. -/
def c3State : BotState :=
  { use_browser := false, headless := false, stealth := true, use_tor := false,
    driver := none, current_url := "https://site/form",
    current_soup := some [c3Form] }

/-- Claim C3 counterexample: the `number` input and the `select` both have
existing default values and no caller override, yet the submitted field
map contains neither — only the `hidden` input is seeded — because the
code seeds only text/email/password/hidden inputs and textareas. -/
theorem submit_form_seed_counterexample :
    submit_form_request c3State [] (Selector.tag "form") =
      some { method := "get", url := "https://site/form", fields := [("h", "k")] } ∧
    nodeAttrD (HNode.elem "input" [("type", "number"), ("name", "n"), ("value", "5")] [])
      "value" "" = "5" ∧
    nodeAttrD (HNode.elem "select" [("name", "s"), ("value", "x")] [])
      "value" "" = "x" := by
  refine ⟨rfl, rfl, rfl⟩

/-- Claim C3 (amended): in transport-only mode the submitted field map
contains, for every field name, the caller-supplied value when one is
given, and otherwise the form's seeded default — where the seeded fields
are exactly the named inputs of type text/email/password/hidden (type
defaulting to text) and the named textareas; selects and inputs of any
other type are not seeded. -/
theorem submit_form_fields_amended (st : BotState) (fd : List (String × String))
    (sel : Selector) (soup : Markup) (form : HNode) (req : FormRequest) (k : String)
    (hnd : (fd.map Prod.fst).Nodup)
    (hs : st.current_soup = some soup)
    (hf : select_oneF sel soup = some form)
    (hreq : submit_form_request st fd sel = some req) :
    dlookup k req.fields =
      match dlookup k fd with
      | some v => some v
      | none => dlookup k (seed_fields form) := by
  unfold submit_form_request at hreq
  rw [hs] at hreq
  dsimp only at hreq
  rw [hf] at hreq
  obtain rfl := (Option.some.inj hreq).symm
  show dlookup k (build_form_fields form fd) = _
  rw [build_form_fields, dlookup_dupdate fd hnd]

/-- Form of the C3 witness: a text input with empty default plus a hidden
input, submitted with a caller value for the text input. -/
def c3WForm : HNode :=
  HNode.elem "form" [("action", "/search"), ("method", "get")]
    [HNode.elem "input" [("type", "text"), ("name", "q"), ("value", "")] [],
     HNode.elem "input" [("type", "hidden"), ("name", "src"), ("value", "home")] []]

/-- Transport-only session whose Document holds `c3WForm`. -/
def c3WState : BotState :=
  { use_browser := false, headless := false, stealth := true, use_tor := false,
    driver := none, current_url := "https://site/p",
    current_soup := some [c3WForm] }

/-- Request the C3 witness submission issues. -/
def c3WReq : FormRequest :=
  { method := "get", url := "https://site/search",
    fields := [("q", "cats"), ("src", "home")] }

/-- Witness for the amended C3 theorem: the non-overridden hidden field
keeps its seeded default in the issued request. -/
theorem submit_form_fields_amended_witness :
    dlookup "src" c3WReq.fields = some "home" :=
  (submit_form_fields_amended c3WState [("q", "cats")] (Selector.tag "form")
    [c3WForm] c3WForm c3WReq "src" (by decide) rfl rfl rfl).trans rfl

/-! ## Claim C4 — click and type in transport-only mode -/

/-- Claim C4: in transport-only mode `click` and `type_text` fail
explicitly — they return failure together with the requires-browser
warning, an outcome no browser-mode execution produces, so the mode
error is distinguishable; in the total embedding no exception escapes. -/
theorem click_type_unsupported_in_mode (st : BotState)
    (bc bt : BrowserActionOutcome) (h : browserMode st = false) :
    click st bc = (false, some BotWarning.clickRequiresBrowser) ∧
    type_text st bt = (false, some BotWarning.typeRequiresBrowser) ∧
    (∀ st2 b2, (click st2 b2).2 = some BotWarning.clickRequiresBrowser →
       browserMode st2 = false) ∧
    (∀ st2 b2, (type_text st2 b2).2 = some BotWarning.typeRequiresBrowser →
       browserMode st2 = false) := by
  refine ⟨?_, ?_, ?_, ?_⟩
  · simp [click, h]
  · simp [type_text, h]
  · intro st2 b2 h2
    cases hmode : browserMode st2
    · rfl
    · unfold click at h2
      rw [hmode] at h2
      cases b2 <;> simp at h2
  · intro st2 b2 h2
    cases hmode : browserMode st2
    · rfl
    · unfold type_text at h2
      rw [hmode] at h2
      cases b2 <;> simp at h2

/-- Session with browsing requested but no live driver, hence in
transport-only mode, for the C4 witness. -/
def c4State : BotState :=
  { use_browser := true, headless := false, stealth := true, use_tor := false,
    driver := none, current_url := "", current_soup := none }

/-- Witness for the C4 theorem at a concrete transport-only session. -/
theorem click_type_unsupported_in_mode_witness :
    click c4State BrowserActionOutcome.success =
      (false, some BotWarning.clickRequiresBrowser) :=
  (click_type_unsupported_in_mode c4State BrowserActionOutcome.success
    BrowserActionOutcome.success rfl).1

/-! ## Claim C5 — permanent degradation to transport-only mode -/

/-- Claim C5: when both browser initialization strategies fail,
`start_browser` switches the session to transport-only mode; no later
operation of the session re-enables browsing or creates a driver; and on
the degraded session `find`, `extract_links` and `get_page_info` ignore
every browser oracle and compute their (total) parsed-markup results. -/
theorem browser_degradation_invariant (st : BotState)
    (h1 : st.use_browser = true) (h2 : st.driver = none) (ops : List BotOp)
    (sel : Selector) (bf : Option HNode) (bl : List LinkRecord) (bp : PageInfo) :
    (start_browser st false false).2.use_browser = false ∧
    (runOps (start_browser st false false).2 ops).use_browser = false ∧
    (runOps (start_browser st false false).2 ops).driver = none ∧
    find (runOps (start_browser st false false).2 ops) bf sel =
      findT (runOps (start_browser st false false).2 ops) sel ∧
    extract_links (runOps (start_browser st false false).2 ops) bl =
      extract_linksT (runOps (start_browser st false false).2 ops) ∧
    get_page_info (runOps (start_browser st false false).2 ops) bp =
      get_page_infoT (runOps (start_browser st false false).2 ops) := by
  have hstart : (start_browser st false false).2 = { st with use_browser := false } := by
    simp [start_browser, h1, h2]
  rw [hstart]
  have hub : ({ st with use_browser := false } : BotState).use_browser = false := rfl
  have hflags := runOps_degraded ops { st with use_browser := false } hub
  have hdrv : (runOps { st with use_browser := false } ops).driver = none := by
    rw [hflags.2]; exact h2
  have hbm : browserMode (runOps { st with use_browser := false } ops) = false := by
    simp [browserMode, hflags.1]
  exact ⟨rfl, hflags.1, hdrv,
    find_transport _ bf sel hbm,
    extract_links_transport _ bl hbm,
    get_page_info_transport _ bp hbm⟩

/-- Browser-configured session with no driver yet, for the C5 witness. -/
def c5State : BotState :=
  { use_browser := true, headless := true, stealth := true, use_tor := true,
    driver := none, current_url := "",
    current_soup := some [HNode.elem "a" [("href", "x")] [HNode.text "L"]] }

/-- Witness for the C5 theorem: after a failed double startup the session
is degraded. -/
theorem browser_degradation_invariant_witness :
    (start_browser c5State false false).2.use_browser = false :=
  (browser_degradation_invariant c5State rfl rfl [BotOp.op_read]
    (Selector.tag "a") none []
    { url := "", title := "", description := "", keywords := "",
      links_count := 0, images_count := 0, forms_count := 0, text_length := 0,
      mode := "requests" }).1

/-! ## Claim C6 — supervisor continues after a worker crash -/

/-- Claim C6: for every iteration k below the budget, regardless of the
worker's (possibly nonzero) exit code on iteration k, the supervisor's
trace carries iteration k's exit wait at position 5k+3 and iteration
k+1's identity rotation at position 5(k+1) — rotation is attempted, not
skipped — and the loop runs exactly the fixed budget of 200 iterations
(5 events each). -/
theorem supervisor_continues_after_crash (exits : Nat → Int) (k : Nat)
    (hk : k + 1 < 200) (_hcrash : exits k ≠ 0) :
    (supervisorTrace exits)[5 * k + 3]? = some (SupEvent.waitExit k (exits k)) ∧
    (supervisorTrace exits)[5 * (k + 1)]? = some (SupEvent.rotate (k + 1)) ∧
    (supervisorTrace exits).length = 5 * 200 := by
  refine ⟨?_, ?_, traceFrom_length exits 0 200⟩
  · have h := traceFrom_getElem exits 200 0 k 3 (by omega) (by omega)
    simpa [supervisorTrace, iterationTrace] using h
  · have h := traceFrom_getElem exits 200 0 (k + 1) 0 (by omega) (by omega)
    simpa [supervisorTrace, iterationTrace] using h

/-- Witness for the C6 theorem: under workers that always exit with code
1, iteration 0's exit wait is at trace position 3. -/
theorem supervisor_continues_after_crash_witness :
    (supervisorTrace (fun _ => 1))[5 * 0 + 3]? = some (SupEvent.waitExit 0 1) :=
  (supervisor_continues_after_crash (fun _ => 1) 0 (by omega) (by decide)).1

/-! ## Claim C7 — argument precedence of the worker entry point -/

/-- Arguments passing both the batch flag and an explicit URL list. -/
def c7Args : Args :=
  { url := none, urls := some ["https://example.org/only"], search := none,
    bing := none, browser := false, headless := false, screenshot := false,
    info := false, save := false, links := false, images := false,
    interactive := false, batch := true, tor := false }

/-- Claim C7 counterexample: with both `--batch` and `--urls` given, the
dispatcher processes the fixed internal list, not the `--urls` arguments —
`--batch` is tested first, so `--urls` does not override it. -/
theorem main_batch_precedence_counterexample :
    mainDispatch c7Args = MainAction.multi urls_to_process false ∧
    urls_to_process ≠ ["https://example.org/only"] := by
  constructor
  · rfl
  · decide

/-- Claim C7 (amended): `--batch` takes precedence over `--urls` (the
internal list is processed whenever `--batch` is given); `--urls` applies
only without `--batch`; otherwise the single-URL flags are picked in the
order `--search`, `--bing`, `--url`, else the first entry of the internal
list (the Google front page would be used only were that list empty). -/
theorem main_dispatch_amended (a : Args) (hi : a.interactive = false) :
    (a.batch = true → mainDispatch a = MainAction.multi urls_to_process a.tor) ∧
    (∀ us, a.batch = false → truthyList a.urls = some us →
       mainDispatch a = MainAction.multi us false) ∧
    (a.batch = false → truthyList a.urls = none →
       mainDispatch a = MainAction.single (singleFlow a)) ∧
    (∀ q, truthyStr a.search = some q → singleFlow a = SingleTarget.searchGoogle q) ∧
    (∀ q, truthyStr a.search = none → truthyStr a.bing = some q →
       singleFlow a = SingleTarget.searchBing q) ∧
    (∀ u, truthyStr a.search = none → truthyStr a.bing = none →
       truthyStr a.url = some u → singleFlow a = SingleTarget.gotoUrl u) ∧
    (truthyStr a.search = none → truthyStr a.bing = none → truthyStr a.url = none →
       singleFlow a = SingleTarget.gotoUrl
         "https://x.com/Hitansh54/status/1931754193489957133") := by
  refine ⟨?_, ?_, ?_, ?_, ?_, ?_, ?_⟩
  · intro hb
    simp [mainDispatch, hi, hb]
  · intro us hb hu
    simp [mainDispatch, hi, hb, hu]
  · intro hb hu
    simp [mainDispatch, hi, hb, hu]
  · intro q hq
    simp [singleFlow, hq]
  · intro q h1 h2
    simp [singleFlow, h1, h2]
  · intro u h1 h2 h3
    simp [singleFlow, h1, h2, h3]
  · intro h1 h2 h3
    simp [singleFlow, h1, h2, h3, urls_to_process]

/-- Witness for the amended C7 theorem at the concrete argument record. -/
theorem main_dispatch_amended_witness :
    mainDispatch c7Args = MainAction.multi urls_to_process false :=
  (main_dispatch_amended c7Args rfl).1 rfl

/-! ## Claim C8 — extraction on a Document with no matching elements -/

/-- Claim C8: on a transport-only session, whenever the Document has zero
elements matching `a[href]`, `extract_links` returns the empty sequence,
and independently, whenever it has zero elements matching `img`,
`extract_images` returns the empty sequence — each emptiness depends only
on its own selector; being total functions of the embedding, both return
rather than raise. -/
theorem extract_empty_when_no_matches (st : BotState) (soup : Markup)
    (bl : List LinkRecord) (bi : List ImageRecord)
    (hm : browserMode st = false) (hs : st.current_soup = some soup) :
    (selectF (Selector.tagAttr "a" "href") soup = [] → extract_links st bl = []) ∧
    (selectF (Selector.tag "img") soup = [] → extract_images st bi = []) := by
  constructor
  · intro hl
    rw [extract_links_transport st bl hm]
    simp [extract_linksT, find_allT, hs, hl]
  · intro himg
    rw [extract_images_transport st bi hm]
    simp [extract_imagesT, find_allT, hs, himg]

/-- Document of the first C8 witness state: zero `a[href]` elements but
one image. -/
def c8LinkFreeDoc : Markup :=
  [HNode.elem "img" [("src", "i.png")] [], HNode.elem "p" [] [HNode.text "hi"]]

/-- Transport-only session whose Document has no links but one image. -/
def c8State : BotState :=
  { use_browser := false, headless := false, stealth := true, use_tor := false,
    driver := none, current_url := "https://site/x",
    current_soup := some c8LinkFreeDoc }

/-- Document of the second C8 witness state: one link but zero `img`
elements. -/
def c8ImageFreeDoc : Markup :=
  [HNode.elem "a" [("href", "/l")] [HNode.text "L"]]

/-- Transport-only session whose Document has one link but no images. -/
def c8StateB : BotState :=
  { use_browser := false, headless := false, stealth := true, use_tor := false,
    driver := none, current_url := "https://site/y",
    current_soup := some c8ImageFreeDoc }

/-- Witness for the C8 theorem: link extraction is empty on a page that
still has an image, and image extraction is empty on a page that still
has a link, so each conclusion follows from its own condition alone. -/
theorem extract_empty_when_no_matches_witness :
    extract_links c8State [] = [] ∧ extract_images c8StateB [] = [] :=
  ⟨(extract_empty_when_no_matches c8State c8LinkFreeDoc [] [] rfl rfl).1 rfl,
   (extract_empty_when_no_matches c8StateB c8ImageFreeDoc [] [] rfl rfl).2 rfl⟩

/-! ## Claim C9 — safe defaults before any successful load -/

/-- Claim C9: on a transport-only session holding no Document, every
read-only operation returns its safe default: `find` is absent, `find_all`,
`extract_links` and `extract_images` are empty, and `get_title` is the
empty string; all are total, so nothing raises. -/
theorem no_document_safe_defaults (st : BotState) (sel : Selector)
    (bf : Option HNode) (bfa : List HNode) (bl : List LinkRecord)
    (bi : List ImageRecord) (bt : String)
    (hm : browserMode st = false) (hs : st.current_soup = none) :
    find st bf sel = none ∧ find_all st bfa sel = [] ∧
    extract_links st bl = [] ∧ extract_images st bi = [] ∧
    get_title st bt = "" := by
  rw [find_transport st bf sel hm, find_all_transport st bfa sel hm,
    extract_links_transport st bl hm, extract_images_transport st bi hm,
    get_title_transport st bt hm]
  refine ⟨?_, ?_, ?_, ?_, ?_⟩ <;>
    simp [findT, find_allT, extract_linksT, extract_imagesT, get_titleT, hs]

/-- Fresh transport-only session that has not loaded anything. -/
def c9State : BotState :=
  { use_browser := false, headless := false, stealth := true, use_tor := false,
    driver := none, current_url := "", current_soup := none }

/-- Witness for the C9 theorem at a fresh session. -/
theorem no_document_safe_defaults_witness :
    find c9State none (Selector.tag "a") = none ∧
    find_all c9State [] (Selector.tag "a") = [] ∧
    extract_links c9State [] = [] ∧ extract_images c9State [] = [] ∧
    get_title c9State "" = "" :=
  no_document_safe_defaults c9State (Selector.tag "a") none [] [] [] "" rfl rfl

/-! ## Claim C10 — atomicity of transport-only form submission -/

/-- Claim C10: in transport-only mode `submit_form` is atomic on failure:
whenever it returns failure the session is exactly as before the call,
and it does return failure when no Document is loaded, when the form
selector matches nothing, and when the response status is not 200. -/
theorem submit_form_atomic_on_failure (st : BotState) (bout : Bool)
    (fd : List (String × String)) (sel : Selector) (resp : Option HttpResponse)
    (hm : browserMode st = false) :
    ((submit_form st bout fd sel resp).1 = false →
       (submit_form st bout fd sel resp).2 = st) ∧
    (st.current_soup = none → submit_form st bout fd sel resp = (false, st)) ∧
    (∀ soup, st.current_soup = some soup → select_oneF sel soup = none →
       submit_form st bout fd sel resp = (false, st)) ∧
    (∀ r, resp = some r → r.status_code ≠ 200 →
       submit_form st bout fd sel resp = (false, st)) := by
  rw [submit_form_transport st bout fd sel resp hm]
  refine ⟨?_, ?_, ?_, ?_⟩
  · cases hq : submit_form_request st fd sel with
    | none => intro _; rfl
    | some req =>
      cases resp with
      | none => intro _; rfl
      | some r =>
        by_cases h200 : r.status_code = 200 <;> simp [h200]
  · intro hs
    have hq : submit_form_request st fd sel = none := by
      unfold submit_form_request
      rw [hs]
    rw [hq]
  · intro soup hs hsel
    have hq : submit_form_request st fd sel = none := by
      unfold submit_form_request
      rw [hs]
      dsimp only
      rw [hsel]
    rw [hq]
  · intro r hr h200
    cases hq : submit_form_request st fd sel with
    | none => rfl
    | some req =>
      rw [hr]
      simp [h200]

/-- Transport-only session with a Document that contains no form. -/
def c10State : BotState :=
  { use_browser := false, headless := false, stealth := true, use_tor := false,
    driver := none, current_url := "https://site/nf",
    current_soup := some [HNode.elem "p" [] [HNode.text "no form here"]] }

/-- Witness for the C10 theorem: submitting when the selector matches
nothing fails and leaves the session unchanged. -/
theorem submit_form_atomic_on_failure_witness :
    submit_form c10State false [] (Selector.tag "form") none = (false, c10State) :=
  ((submit_form_atomic_on_failure c10State false [] (Selector.tag "form") none
    rfl).2.2.1 [HNode.elem "p" [] [HNode.text "no form here"]] rfl rfl)
